import Mathlib

/-!
Verification of the stream-delivery client contract implemented in
`pertamina-frontend-build/lib/api.ts` of the area-traffic-control-system
frontend, together with a spec-level model of the Stream Delivery Engine
components (Transcode Worker Supervisor, Segment Store) whose code is not
part of the given source tree.

The embedding is shallow: the `api` helper becomes a pure function over an
explicit cache state, a call clock, and an oracle describing the outcome of
the underlying `fetch`; the typed getters are wrappers around it; the
retrying `getCctvStreamUrl` becomes a recursion over its attempt schedule.
-/

deriving instance DecidableEq for Except

namespace ATCS

/-- `containsAux pat l` is true when `pat` occurs as a contiguous sublist
of `l`; helper for JavaScript style `String.includes`. -/
def containsAux (pat : List Char) : List Char → Bool
  | [] => pat.isEmpty
  | c :: rest => pat.isPrefixOf (c :: rest) || containsAux pat rest

/-- JavaScript `s.includes(pat)`. -/
def strContains (s pat : String) : Bool := containsAux pat.data s.data

/-- A JavaScript `Error` value, reduced to the two fields `api.ts`
inspects: `name` and `message`. -/
structure JsError where
  name : String
  message : String
  deriving Repr, DecidableEq

/-- An `AbortSignal` handed to `fetch`: either `AbortSignal.timeout(ms)`
(fires after `ms` milliseconds) or an arbitrary caller-constructed signal,
identified abstractly. -/
inductive Signal where
  | timeoutAfter (ms : Nat)
  | custom (id : Nat)
  deriving Repr, DecidableEq

/-- The slice of the `RequestInit` options object (`api.ts` line 16) that
the `api` helper inspects.  `method = none` models an absent `method` key;
`signalKey = none` models an absent `signal` key, `signalKey = some none`
models `signal: undefined` (key present, value `undefined`), and
`signalKey = some (some s)` a caller-supplied signal.  `skipCache` is the
ad-hoc `(options as any).skipCache || false` flag (line 22). -/
structure RequestOptions where
  method : Option String
  skipCache : Bool
  signalKey : Option (Option Signal)
  deriving Repr, DecidableEq

/-- The empty options object `{}` used by every typed getter. -/
def emptyOptions : RequestOptions := ⟨none, false, none⟩

/-- `options.method || 'GET'` (line 18); the empty string is falsy in
JavaScript, so it also falls back to `GET`. -/
def RequestOptions.effectiveMethod (o : RequestOptions) : String :=
  match o.method with
  | none => "GET"
  | some m => if m = "" then "GET" else m

/-- The abort signal the `fetch` call actually receives.  Line 37 computes
`options.signal ?? AbortSignal.timeout(timeoutMs)`, but the `...options`
spread on line 38 comes after it, so an options object that carries its own
`signal` key (even with value `undefined`) overrides the timeout signal. -/
def RequestOptions.effectiveSignal (o : RequestOptions) (timeoutMs : Nat) :
    Option Signal :=
  match o.signalKey with
  | none => some (Signal.timeoutAfter timeoutMs)
  | some v => v

/-- `API_BASE_URL` (line 2), with `NEXT_PUBLIC_API_URL` unset. -/
def API_BASE_URL : String := "http://127.0.0.1:8000/api"

/-- `CACHE_TTL` (line 13). -/
def CACHE_TTL : Nat := 5000

/-- The default of the `timeoutMs` parameter of `api` (line 16). -/
def DEFAULT_TIMEOUT_MS : Nat := 30000

/-- One entry of the in-memory `apiCache` (line 12). -/
structure CacheEntry (α : Type) where
  data : α
  timestamp : Nat
  deriving Repr, DecidableEq

/-- The `apiCache` map, as an association list with `Map.set` semantics. -/
abbrev Cache (α : Type) := List (String × CacheEntry α)

/-- `apiCache.get(key)`. -/
def cacheGet {α : Type} (c : Cache α) (k : String) : Option (CacheEntry α) :=
  (c.find? (fun p => p.1 == k)).map Prod.snd

/-- `apiCache.set(key, entry)`: the new binding shadows any older one. -/
def cacheSet {α : Type} (c : Cache α) (k : String) (e : CacheEntry α) : Cache α :=
  (k, e) :: c.filter (fun p => p.1 != k)

/-- Oracle for what happens when `api` reaches the `fetch` call (lines
42-48): the response was ok and parsed to an `ApiResponse` with the given
`success` flag and `data`; or the response was not ok with the given
status (line 44); or `fetch`/`json()` threw an `Error` (network failure,
abort, parse error); or a non-`Error` value was thrown. -/
inductive FetchOutcome (α : Type) where
  | ok (success : Bool) (data : α)
  | httpError (status : Nat) (statusText : String)
  | thrown (e : JsError)
  | thrownNonError
  deriving Repr, DecidableEq

/-- Outcomes other than a parsed response: these take the `catch` path. -/
def FetchOutcome.isFailure {α : Type} : FetchOutcome α → Bool
  | FetchOutcome.ok _ _ => false
  | _ => true

/-- What one call of `api` produces: the value returned or error thrown,
the cache afterwards, and whether a network request was issued. -/
structure ApiResult (α : Type) where
  result : Except JsError α
  cache : Cache α
  fetched : Bool

/-- The classification on line 72: `error.name === 'AbortError' ||
error.message.includes('timeout')`. -/
def isTimeoutLike (e : JsError) : Bool :=
  e.name == "AbortError" || strContains e.message "timeout"

/-- The distinct timeout error thrown on line 73. -/
def timeoutError : JsError :=
  ⟨"Error", "API request timeout: The backend is taking too long to respond. Please ensure the Octane server is running."⟩

/-- Lines 71-78: rethrow an `Error` (replaced by `timeoutError` when it
looks like a timeout), or wrap a non-`Error` throw. -/
def apiThrow {α : Type} (e : Option JsError) : Except JsError α :=
  match e with
  | some err =>
      if isTimeoutLike err then Except.error timeoutError else Except.error err
  | none => Except.error ⟨"Error", "Unknown API request error"⟩

/-- The `catch` block (lines 59-78): a GET with any cached entry — however
stale — returns the cached data; otherwise the error propagates. -/
def apiCatch {α : Type} (cache : Cache α) (method cacheKey : String)
    (e : Option JsError) : Except JsError α :=
  if method = "GET" then
    match cacheGet cache cacheKey with
    | some entry => Except.ok entry.data
    | none => apiThrow e
  else apiThrow e

/-- The URL built on line 17. -/
def apiUrl (endpoint : String) : String := API_BASE_URL ++ endpoint

/-- The cache key built on line 19. -/
def apiCacheKey (method endpoint : String) : String :=
  method ++ ":" ++ apiUrl endpoint

/-- Lines 41-79: the `try` body from the `fetch` call on, with the `catch`
block applied to each failure.  A successful parse returns `result.data`
(line 58) whatever `result.success` is, but only a `success` response of a
GET request is cached (lines 50-56). -/
def apiFetchPhase {α : Type} (cache : Cache α) (method cacheKey : String)
    (now : Nat) (outcome : FetchOutcome α) : ApiResult α :=
  match outcome with
  | FetchOutcome.ok success data =>
      ⟨Except.ok data,
       if method = "GET" ∧ success = true then
         cacheSet cache cacheKey ⟨data, now⟩
       else cache,
       true⟩
  | FetchOutcome.httpError status statusText =>
      ⟨apiCatch cache method cacheKey
         (some ⟨"Error", "API request failed: " ++ toString status ++ " " ++ statusText⟩),
       cache, true⟩
  | FetchOutcome.thrown e => ⟨apiCatch cache method cacheKey (some e), cache, true⟩
  | FetchOutcome.thrownNonError => ⟨apiCatch cache method cacheKey none, cache, true⟩

/-- The `api` helper (lines 16-80) as a function of the cache state, the
call's options and timeout, the clock value `now` (`Date.now()`), and the
fetch outcome oracle.  Lines 21-28: a GET call without `skipCache` whose
cached entry is younger than `CACHE_TTL` returns it without fetching. -/
def api {α : Type} (cache : Cache α) (endpoint : String)
    (options : RequestOptions) (timeoutMs : Nat) (now : Nat)
    (outcome : FetchOutcome α) : ApiResult α :=
  match (if options.effectiveMethod = "GET" ∧ options.skipCache = false then
           cacheGet cache (apiCacheKey options.effectiveMethod endpoint)
         else none) with
  | some entry =>
      if now - entry.timestamp < CACHE_TTL then
        ⟨Except.ok entry.data, cache, false⟩
      else
        apiFetchPhase cache options.effectiveMethod
          (apiCacheKey options.effectiveMethod endpoint) now outcome
  | none =>
      apiFetchPhase cache options.effectiveMethod
        (apiCacheKey options.effectiveMethod endpoint) now outcome

example :
    (api ([("GET:http://127.0.0.1:8000/api/stats", ⟨(7 : Nat), 0⟩)]) "/stats"
      emptyOptions DEFAULT_TIMEOUT_MS 100 FetchOutcome.thrownNonError).result
      = Except.ok 7 := by decide

example :
    (api ([] : Cache Nat) "/stats" emptyOptions DEFAULT_TIMEOUT_MS 100
      (FetchOutcome.thrown ⟨"AbortError", "aborted"⟩)).result
      = Except.error timeoutError := by decide

/-- The `StreamData` payload (lines 140-143). -/
structure StreamData where
  stream_url : String
  deriving Repr, DecidableEq

/-- The per-attempt timeout schedule of `getCctvStreamUrl` (line 263). -/
def streamAttempts : List Nat := [12000, 15000, 20000]

/-- The inter-attempt delay of `getCctvStreamUrl` (line 273). -/
def RETRY_DELAY_MS : Nat := 750

/-- Observable trace of one `getCctvStreamUrl` call: the value returned to
the caller, the per-attempt timeouts of the attempts actually made (in
order), and the total milliseconds spent in inter-attempt delays. -/
structure RetryTrace where
  result : StreamData
  timeoutsUsed : List Nat
  totalDelay : Nat
  deriving Repr, DecidableEq

/-- The `for` loop of `getCctvStreamUrl` (lines 264-276).
`attemptResult i` is the outcome of `await api('/cctvs/stream/' + cctvId,
{}, attempts[i])` on attempt `i` (index into the original schedule); a
success returns immediately, a failure sleeps 750 ms and retries unless
the schedule is exhausted, in which case `{ stream_url: '' }` is returned
(line 278). -/
def streamRetryLoop (attemptResult : Nat → Except JsError StreamData) :
    Nat → List Nat → RetryTrace
  | _, [] => ⟨⟨""⟩, [], 0⟩
  | i, t :: rest =>
      match attemptResult i with
      | Except.ok d => ⟨d, [t], 0⟩
      | Except.error _ =>
          match rest with
          | [] => ⟨⟨""⟩, [t], 0⟩
          | r :: rs =>
              let tr := streamRetryLoop attemptResult (i + 1) (r :: rs)
              ⟨tr.result, t :: tr.timeoutsUsed, RETRY_DELAY_MS + tr.totalDelay⟩

/-- `getCctvStreamUrl` (lines 261-279), abstracted over the per-attempt
outcome oracle: the identity of the camera and the whole network/cache
environment are folded into `attemptResult`. -/
def getCctvStreamUrl (attemptResult : Nat → Except JsError StreamData) :
    RetryTrace :=
  streamRetryLoop attemptResult 0 streamAttempts

example :
    getCctvStreamUrl (fun _ => Except.error timeoutError)
      = ⟨⟨""⟩, [12000, 15000, 20000], 1500⟩ := by decide

example :
    getCctvStreamUrl (fun i =>
        if i = 1 then Except.ok ⟨"u"⟩ else Except.error timeoutError)
      = ⟨⟨"u"⟩, [12000, 15000], 750⟩ := by decide

/-- `Stats` (lines 83-87). -/
structure Stats where
  total_buildings : Nat
  total_rooms : Nat
  total_cctvs : Nat
  deriving Repr, DecidableEq

/-- `Building` (lines 89-95); rooms omitted as no claim inspects them. -/
structure Building where
  id : String
  name : String
  latitude : Option String
  longitude : Option String
  deriving Repr, DecidableEq

/-- `Room` (lines 97-102). -/
structure Room where
  id : String
  name : String
  building_id : String
  deriving Repr, DecidableEq

/-- `Cctv` (lines 104-114). -/
structure Cctv where
  id : String
  name : String
  ip_address : String
  rtsp_url : String
  room_id : String
  deriving Repr, DecidableEq

/-- `ProductionTrend` (lines 116-122); numeric fields as integers. -/
structure ProductionTrend where
  label : String
  production : Int
  traffic_volume : Int
  green_wave_efficiency : Int
  average_speed : Int
  deriving Repr, DecidableEq

/-- `UnitPerformance` (lines 124-130). -/
structure UnitPerformance where
  unit : String
  efficiency : Int
  traffic_density : Int
  signal_optimization : Int
  capacity : Int
  deriving Repr, DecidableEq

/-- `Contact` (lines 145-151). -/
structure Contact where
  id : String
  email : Option String
  phone : Option String
  deriving Repr, DecidableEq

/-- `DashboardBundle` (lines 132-138). -/
structure DashboardBundle where
  stats : Stats
  production_trends : List ProductionTrend
  unit_performance : List UnitPerformance
  buildings : List Building
  contacts : List Contact
  deriving Repr, DecidableEq

/-- `getDashboardBundle` (lines 159-167): the only getter whose `catch`
block re-throws, so the api outcome propagates unchanged. -/
def getDashboardBundle (cache : Cache DashboardBundle) (now : Nat)
    (outcome : FetchOutcome DashboardBundle) : Except JsError DashboardBundle :=
  (api cache "/dashboard-bundle" emptyOptions DEFAULT_TIMEOUT_MS now outcome).result

/-- `getStats` (lines 169-182): errors collapse to all-zero counts. -/
def getStats (cache : Cache Stats) (now : Nat)
    (outcome : FetchOutcome Stats) : Stats :=
  match (api cache "/stats" emptyOptions DEFAULT_TIMEOUT_MS now outcome).result with
  | Except.ok s => s
  | Except.error _ => ⟨0, 0, 0⟩

/-- `getBuildings` (lines 184-193). -/
def getBuildings (cache : Cache (List Building)) (now : Nat)
    (outcome : FetchOutcome (List Building)) : List Building :=
  match (api cache "/buildings" emptyOptions DEFAULT_TIMEOUT_MS now outcome).result with
  | Except.ok l => l
  | Except.error _ => []

/-- `getRooms` (lines 206-215). -/
def getRooms (cache : Cache (List Room)) (now : Nat)
    (outcome : FetchOutcome (List Room)) : List Room :=
  match (api cache "/rooms" emptyOptions DEFAULT_TIMEOUT_MS now outcome).result with
  | Except.ok l => l
  | Except.error _ => []

/-- `getCctvs` (lines 239-248). -/
def getCctvs (cache : Cache (List Cctv)) (now : Nat)
    (outcome : FetchOutcome (List Cctv)) : List Cctv :=
  match (api cache "/cctvs" emptyOptions DEFAULT_TIMEOUT_MS now outcome).result with
  | Except.ok l => l
  | Except.error _ => []

/-- `getCctvsByRoom` (lines 250-259). -/
def getCctvsByRoom (roomId : String) (cache : Cache (List Cctv)) (now : Nat)
    (outcome : FetchOutcome (List Cctv)) : List Cctv :=
  match (api cache ("/cctvs/room/" ++ roomId) emptyOptions DEFAULT_TIMEOUT_MS
          now outcome).result with
  | Except.ok l => l
  | Except.error _ => []

/-- The query-string construction shared by `getProductionTrends` and
`getUnitPerformance` (lines 283-297): a parameter is appended only when it
is truthy (present and non-empty); percent-encoding is not modelled as no
claim depends on it. -/
def dateRangeUrl (base : String) (startDate endDate : Option String) : String :=
  let ps : List (String × String) :=
    (match startDate with
     | some s => if s = "" then [] else [("start_date", s)]
     | none => []) ++
    (match endDate with
     | some s => if s = "" then [] else [("end_date", s)]
     | none => [])
  match ps with
  | [] => base
  | _ => base ++ "?" ++ String.intercalate "&" (ps.map (fun p => p.1 ++ "=" ++ p.2))

/-- `getProductionTrends` (lines 281-306). -/
def getProductionTrends (startDate endDate : Option String)
    (cache : Cache (List ProductionTrend)) (now : Nat)
    (outcome : FetchOutcome (List ProductionTrend)) : List ProductionTrend :=
  match (api cache (dateRangeUrl "/production-trends" startDate endDate)
          emptyOptions DEFAULT_TIMEOUT_MS now outcome).result with
  | Except.ok l => l
  | Except.error _ => []

/-- `getUnitPerformance` (lines 308-332). -/
def getUnitPerformance (startDate endDate : Option String)
    (cache : Cache (List UnitPerformance)) (now : Nat)
    (outcome : FetchOutcome (List UnitPerformance)) : List UnitPerformance :=
  match (api cache (dateRangeUrl "/unit-performance" startDate endDate)
          emptyOptions DEFAULT_TIMEOUT_MS now outcome).result with
  | Except.ok l => l
  | Except.error _ => []

/-- `getContacts` (lines 334-344): the single nullable contact is wrapped
into a list (`response ? [response] : []`), errors collapse to `[]`. -/
def getContacts (cache : Cache (Option Contact)) (now : Nat)
    (outcome : FetchOutcome (Option Contact)) : List Contact :=
  match (api cache "/contact" emptyOptions DEFAULT_TIMEOUT_MS now outcome).result with
  | Except.ok (some c) => [c]
  | Except.ok none => []
  | Except.error _ => []

/-- Modelled from the spec: a live transcoding `Worker` of the Transcode
Worker Supervisor (spec §3, §4.1); the engine's code is absent from the
source tree, only its client contract appears in `lib/api.ts`.  A worker
carries its source id and an abstract process handle. -/
structure Worker where
  sourceId : String
  handle : Nat
  deriving Repr, DecidableEq

/-- Modelled from the spec: the supervisor's state — the set of live
workers plus a supply of fresh process handles (spec §4.1). -/
structure SupervisorState where
  workers : List Worker
  nextHandle : Nat
  deriving Repr, DecidableEq

/-- The supervisor before any worker was spawned. -/
def initSupervisor : SupervisorState := ⟨[], 0⟩

/-- The live worker registered for a source, if any. -/
def findWorker (st : SupervisorState) (id : String) : Option Worker :=
  st.workers.find? (fun w => w.sourceId == id)

/-- Result of one `ensure_worker` call: the handle returned to the caller,
the supervisor state afterwards, and whether a process was spawned. -/
structure EnsureResult where
  worker : Worker
  state : SupervisorState
  spawned : Bool
  deriving Repr, DecidableEq

/-- Modelled from the spec: `ensure_worker(source_id)` (spec §4.1) — if a
live worker already exists for the source it is returned unchanged and no
process is spawned; otherwise exactly one new process is spawned.  Spec §5
requires `ensure_worker` calls for one source id to serialize, so a
concurrent storm is modelled as a sequence of atomic calls. -/
def ensure_worker (st : SupervisorState) (id : String) : EnsureResult :=
  match findWorker st id with
  | some w => ⟨w, st, false⟩
  | none => ⟨⟨id, st.nextHandle⟩, ⟨⟨id, st.nextHandle⟩ :: st.workers, st.nextHandle + 1⟩, true⟩

/-- Modelled from the spec: `stop_worker(source_id)` (spec §4.1) —
terminates and removes the source's worker. -/
def stop_worker (st : SupervisorState) (id : String) : SupervisorState :=
  ⟨st.workers.filter (fun w => w.sourceId != id), st.nextHandle⟩

/-- Supervisor states reachable from startup through `ensure_worker` and
`stop_worker` calls. -/
inductive SupervisorReachable : SupervisorState → Prop where
  | init : SupervisorReachable initSupervisor
  | ensure (st : SupervisorState) (id : String) :
      SupervisorReachable st → SupervisorReachable (ensure_worker st id).state
  | stop (st : SupervisorState) (id : String) :
      SupervisorReachable st → SupervisorReachable (stop_worker st id)

/-- How many live workers a source has. -/
def liveWorkersFor (st : SupervisorState) (id : String) : Nat :=
  (st.workers.filter (fun w => w.sourceId == id)).length

/-- Modelled from the spec: the Segment Store of one source (spec §3,
§4.4) — the manifest (list of referenced chunk ids, oldest first), the
chunk ids whose backing data exists in storage, the chunks dropped from
the manifest whose deferred deletion is still pending, and a counter
generating fresh sequence numbers. -/
structure StoreState where
  manifest : List Nat
  storage : List Nat
  pending : List Nat
  nextSeq : Nat
  deriving Repr, DecidableEq

/-- The store before any segment was written. -/
def initStore : StoreState := ⟨[], [], [], 0⟩

/-- Modelled from the spec: the atomic filesystem steps of Segment Store
housekeeping (spec §4.4).  A chunk's data is written before the manifest
is rewritten to reference it; aging first rewrites the manifest to drop
the oldest reference (the chunk becomes pending) and only a pending chunk
— one whose dropping rewrite is already visible — may be deleted. -/
inductive StoreStep : StoreState → StoreState → Prop where
  | writeChunk (st : StoreState) :
      StoreStep st ⟨st.manifest, st.nextSeq :: st.storage, st.pending, st.nextSeq + 1⟩
  | publishRef (st : StoreState) (c : Nat) :
      c ∈ st.storage → c ∉ st.manifest → c ∉ st.pending →
      StoreStep st ⟨st.manifest ++ [c], st.storage, st.pending, st.nextSeq⟩
  | dropOldest (st : StoreState) (c : Nat) (rest : List Nat) :
      st.manifest = c :: rest →
      StoreStep st ⟨rest, st.storage, c :: st.pending, st.nextSeq⟩
  | deleteChunk (st : StoreState) (c : Nat) :
      c ∈ st.pending →
      StoreStep st ⟨st.manifest, st.storage.erase c, st.pending.erase c, st.nextSeq⟩

/-- Store states reachable from the empty store. -/
inductive StoreReachable : StoreState → Prop where
  | init : StoreReachable initStore
  | step {s t : StoreState} : StoreReachable s → StoreStep s t → StoreReachable t

/-- The inductive invariant of the Segment Store: the manifest has no
duplicate references, every referenced chunk is backed by storage, and no
pending-deletion chunk is still referenced. -/
def StoreInv (st : StoreState) : Prop :=
  st.manifest.Nodup ∧ (∀ c ∈ st.manifest, c ∈ st.storage) ∧
    (∀ c ∈ st.pending, c ∉ st.manifest)

/-- C3 counterexample: the fetch is NOT always given an abort signal that
fires after `timeoutMs`.  An options object whose `signal` key is present
with value `undefined` leaves the request with no abort signal at all
(the `...options` spread overrides the `AbortSignal.timeout` computed just
before it), and a caller-supplied signal replaces the timeout signal. -/
theorem api_signal_not_always_timeout :
    RequestOptions.effectiveSignal ⟨none, false, some none⟩ DEFAULT_TIMEOUT_MS = none ∧
    RequestOptions.effectiveSignal ⟨none, false, some (some (Signal.custom 0))⟩
        DEFAULT_TIMEOUT_MS = some (Signal.custom 0) :=
  ⟨rfl, rfl⟩

/-- C3 (amended): when the caller's options carry no `signal` key, the
fetch is given `AbortSignal.timeout(timeoutMs)` (with 30000 ms the default
when the caller supplies no timeout); when the options carry a `signal`
key, that value — possibly `undefined`, i.e. no abort signal — replaces
the timeout signal. -/
theorem api_signal_default_timeout :
    DEFAULT_TIMEOUT_MS = 30000 ∧
    (∀ (o : RequestOptions) (tm : Nat), o.signalKey = none →
       o.effectiveSignal tm = some (Signal.timeoutAfter tm)) ∧
    (∀ (o : RequestOptions) (v : Option Signal) (tm : Nat), o.signalKey = some v →
       o.effectiveSignal tm = v) := by
  refine ⟨rfl, ?_, ?_⟩
  · intro o tm h
    simp [RequestOptions.effectiveSignal, h]
  · intro o v tm h
    simp [RequestOptions.effectiveSignal, h]

/-- Witness for the amended C3 at a concrete options object. -/
theorem api_signal_default_timeout_witness :
    RequestOptions.effectiveSignal ⟨none, false, none⟩ 30000
      = some (Signal.timeoutAfter 30000) :=
  api_signal_default_timeout.2.1 ⟨none, false, none⟩ 30000 rfl

/-- C10: the typed getters never throw — on any error from the underlying
`api` call, `getStats` returns all-zero counts, the list getters return
`[]`, and only `getDashboardBundle` propagates the error to its caller. -/
theorem typed_getters_never_throw :
    (∀ (cache : Cache Stats) (now : Nat) (outcome : FetchOutcome Stats) (e : JsError),
       (api cache "/stats" emptyOptions DEFAULT_TIMEOUT_MS now outcome).result
         = Except.error e →
       getStats cache now outcome = ⟨0, 0, 0⟩) ∧
    (∀ (cache : Cache (List Building)) (now : Nat)
       (outcome : FetchOutcome (List Building)) (e : JsError),
       (api cache "/buildings" emptyOptions DEFAULT_TIMEOUT_MS now outcome).result
         = Except.error e →
       getBuildings cache now outcome = []) ∧
    (∀ (cache : Cache (List Room)) (now : Nat)
       (outcome : FetchOutcome (List Room)) (e : JsError),
       (api cache "/rooms" emptyOptions DEFAULT_TIMEOUT_MS now outcome).result
         = Except.error e →
       getRooms cache now outcome = []) ∧
    (∀ (cache : Cache (List Cctv)) (now : Nat)
       (outcome : FetchOutcome (List Cctv)) (e : JsError),
       (api cache "/cctvs" emptyOptions DEFAULT_TIMEOUT_MS now outcome).result
         = Except.error e →
       getCctvs cache now outcome = []) ∧
    (∀ (roomId : String) (cache : Cache (List Cctv)) (now : Nat)
       (outcome : FetchOutcome (List Cctv)) (e : JsError),
       (api cache ("/cctvs/room/" ++ roomId) emptyOptions DEFAULT_TIMEOUT_MS
          now outcome).result = Except.error e →
       getCctvsByRoom roomId cache now outcome = []) ∧
    (∀ (sd ed : Option String) (cache : Cache (List ProductionTrend)) (now : Nat)
       (outcome : FetchOutcome (List ProductionTrend)) (e : JsError),
       (api cache (dateRangeUrl "/production-trends" sd ed) emptyOptions
          DEFAULT_TIMEOUT_MS now outcome).result = Except.error e →
       getProductionTrends sd ed cache now outcome = []) ∧
    (∀ (sd ed : Option String) (cache : Cache (List UnitPerformance)) (now : Nat)
       (outcome : FetchOutcome (List UnitPerformance)) (e : JsError),
       (api cache (dateRangeUrl "/unit-performance" sd ed) emptyOptions
          DEFAULT_TIMEOUT_MS now outcome).result = Except.error e →
       getUnitPerformance sd ed cache now outcome = []) ∧
    (∀ (cache : Cache (Option Contact)) (now : Nat)
       (outcome : FetchOutcome (Option Contact)) (e : JsError),
       (api cache "/contact" emptyOptions DEFAULT_TIMEOUT_MS now outcome).result
         = Except.error e →
       getContacts cache now outcome = []) ∧
    (∀ (cache : Cache DashboardBundle) (now : Nat)
       (outcome : FetchOutcome DashboardBundle) (e : JsError),
       (api cache "/dashboard-bundle" emptyOptions DEFAULT_TIMEOUT_MS now
          outcome).result = Except.error e →
       getDashboardBundle cache now outcome = Except.error e) := by
  refine ⟨?_, ?_, ?_, ?_, ?_, ?_, ?_, ?_, ?_⟩
  · intro cache now outcome e h
    simp [getStats, h]
  · intro cache now outcome e h
    simp [getBuildings, h]
  · intro cache now outcome e h
    simp [getRooms, h]
  · intro cache now outcome e h
    simp [getCctvs, h]
  · intro roomId cache now outcome e h
    simp [getCctvsByRoom, h]
  · intro sd ed cache now outcome e h
    simp [getProductionTrends, h]
  · intro sd ed cache now outcome e h
    simp [getUnitPerformance, h]
  · intro cache now outcome e h
    simp [getContacts, h]
  · intro cache now outcome e h
    simp [getDashboardBundle, h]

/-- Witness for C10: a concrete failed call leaves `getStats` with the
all-zero fallback. -/
theorem typed_getters_never_throw_witness :
    getStats [] 0 FetchOutcome.thrownNonError = ⟨0, 0, 0⟩ :=
  typed_getters_never_throw.1 [] 0 FetchOutcome.thrownNonError
    ⟨"Error", "Unknown API request error"⟩ (by decide)

/-- C4 counterexample: a GET request whose fetch is aborted for exceeding
the per-attempt timeout does NOT always surface the distinct timeout
error — with a (stale) cached entry present, `api` returns the cached
data and the caller sees a success. -/
theorem api_timeout_swallowed_by_cache :
    (api ([("GET:http://127.0.0.1:8000/api/stats", ⟨(7 : Nat), 0⟩)]) "/stats"
        emptyOptions DEFAULT_TIMEOUT_MS 999999
        (FetchOutcome.thrown ⟨"AbortError", "The operation was aborted"⟩)).result
      = Except.ok 7 := by decide

/-- C4 (amended): when a request's fetch fails with a timeout-shaped error
(name `AbortError`, or message containing `timeout`) and the stale-cache
fallback does not apply (non-GET method, or no cached entry for the key),
`api` throws the distinct `API request timeout` error — it neither
succeeds nor surfaces an undifferentiated error. -/
theorem api_timeout_error_distinct {α : Type} :
    ∀ (cache : Cache α) (endpoint : String) (o : RequestOptions)
      (tm now : Nat) (e : JsError),
      isTimeoutLike e = true →
      (o.effectiveMethod ≠ "GET" ∨
        cacheGet cache (apiCacheKey o.effectiveMethod endpoint) = none) →
      (api cache endpoint o tm now (FetchOutcome.thrown e)).result
        = Except.error timeoutError := by
  intro cache endpoint o tm now e hT hOr
  rcases hOr with hM | hC
  · simp [api, apiFetchPhase, apiCatch, apiThrow, hM, hT]
  · simp [api, apiFetchPhase, apiCatch, apiThrow, hC, hT]

/-- Witness for the amended C4: a concrete aborted request with an empty
cache surfaces the distinct timeout error. -/
theorem api_timeout_error_distinct_witness :
    (api ([] : Cache Nat) "/x" emptyOptions 1000 0
        (FetchOutcome.thrown ⟨"AbortError", "x"⟩)).result
      = Except.error timeoutError :=
  api_timeout_error_distinct [] "/x" emptyOptions 1000 0 ⟨"AbortError", "x"⟩
    (by decide) (Or.inr rfl)

/-- `apiCache.set` followed by `apiCache.get` of the same key yields the
entry just stored. -/
theorem cacheGet_set_self {α : Type} (c : Cache α) (k : String) (e : CacheEntry α) :
    cacheGet (cacheSet c k e) k = some e := by
  simp [cacheGet, cacheSet, List.find?]

/-- Unfolding `api` when the initial cache check finds an entry. -/
theorem api_unfold_hit {α : Type} (cache : Cache α) (endpoint : String)
    (o : RequestOptions) (tm now : Nat) (outcome : FetchOutcome α)
    (entry : CacheEntry α)
    (h : (if o.effectiveMethod = "GET" ∧ o.skipCache = false then
            cacheGet cache (apiCacheKey o.effectiveMethod endpoint) else none)
          = some entry) :
    api cache endpoint o tm now outcome
      = if now - entry.timestamp < CACHE_TTL then
          ⟨Except.ok entry.data, cache, false⟩
        else
          apiFetchPhase cache o.effectiveMethod
            (apiCacheKey o.effectiveMethod endpoint) now outcome := by
  unfold api
  rw [h]

/-- Unfolding `api` when the initial cache check misses. -/
theorem api_unfold_miss {α : Type} (cache : Cache α) (endpoint : String)
    (o : RequestOptions) (tm now : Nat) (outcome : FetchOutcome α)
    (h : (if o.effectiveMethod = "GET" ∧ o.skipCache = false then
            cacheGet cache (apiCacheKey o.effectiveMethod endpoint) else none)
          = none) :
    api cache endpoint o tm now outcome
      = apiFetchPhase cache o.effectiveMethod
          (apiCacheKey o.effectiveMethod endpoint) now outcome := by
  unfold api
  rw [h]

/-- On the `catch` path a GET with a cached entry returns it. -/
theorem apiFetchPhase_failure_with_cache {α : Type} (cache : Cache α)
    (k : String) (now : Nat) (outcome : FetchOutcome α) (entry : CacheEntry α)
    (hF : outcome.isFailure = true) (hE : cacheGet cache k = some entry) :
    (apiFetchPhase cache "GET" k now outcome).result = Except.ok entry.data := by
  cases outcome with
  | ok s d => simp [FetchOutcome.isFailure] at hF
  | httpError s t => simp [apiFetchPhase, apiCatch, hE]
  | thrown e => simp [apiFetchPhase, apiCatch, hE]
  | thrownNonError => simp [apiFetchPhase, apiCatch, hE]

/-- On the `catch` path a GET with no cached entry throws some error. -/
theorem apiFetchPhase_failure_no_cache {α : Type} (cache : Cache α)
    (k : String) (now : Nat) (outcome : FetchOutcome α)
    (hF : outcome.isFailure = true) (hE : cacheGet cache k = none) :
    ∃ e, (apiFetchPhase cache "GET" k now outcome).result = Except.error e := by
  cases outcome with
  | ok s d => simp [FetchOutcome.isFailure] at hF
  | httpError s t =>
      simp only [apiFetchPhase, apiCatch, hE, if_true, reduceIte, apiThrow]
      split
      · exact ⟨timeoutError, rfl⟩
      · exact ⟨_, rfl⟩
  | thrown e =>
      simp only [apiFetchPhase, apiCatch, hE, if_true, reduceIte, apiThrow]
      split
      · exact ⟨timeoutError, rfl⟩
      · exact ⟨e, rfl⟩
  | thrownNonError =>
      simp only [apiFetchPhase, apiCatch, hE, if_true, reduceIte, apiThrow]
      exact ⟨_, rfl⟩

/-- C9: on a failed GET fetch (network error, non-ok HTTP status, abort,
or parse failure), `api` falls back to any cached entry for the call's
method-and-URL key, however stale, and returns its data; an error is
surfaced only when no entry was ever cached for that key. -/
theorem api_stale_cache_fallback {α : Type} :
    ∀ (cache : Cache α) (endpoint : String) (o : RequestOptions)
      (tm now : Nat) (outcome : FetchOutcome α),
      o.effectiveMethod = "GET" →
      outcome.isFailure = true →
      (∀ entry : CacheEntry α,
         cacheGet cache (apiCacheKey "GET" endpoint) = some entry →
         (api cache endpoint o tm now outcome).result = Except.ok entry.data) ∧
      (cacheGet cache (apiCacheKey "GET" endpoint) = none →
         ∃ e, (api cache endpoint o tm now outcome).result = Except.error e) := by
  intro cache endpoint o tm now outcome hM hF
  constructor
  · intro entry hE
    cases hS : o.skipCache with
    | false =>
        by_cases hFresh : now - entry.timestamp < CACHE_TTL
        · rw [api_unfold_hit cache endpoint o tm now outcome entry
              (by simp [hM, hS, hE]), if_pos hFresh]
        · rw [api_unfold_hit cache endpoint o tm now outcome entry
              (by simp [hM, hS, hE]), if_neg hFresh, hM]
          exact apiFetchPhase_failure_with_cache cache _ now outcome entry hF hE
    | true =>
        rw [api_unfold_miss cache endpoint o tm now outcome (by simp [hS]), hM]
        exact apiFetchPhase_failure_with_cache cache _ now outcome entry hF hE
  · intro hE
    cases hS : o.skipCache with
    | false =>
        rw [api_unfold_miss cache endpoint o tm now outcome
            (by simp [hM, hS, hE]), hM]
        exact apiFetchPhase_failure_no_cache cache _ now outcome hF hE
    | true =>
        rw [api_unfold_miss cache endpoint o tm now outcome (by simp [hS]), hM]
        exact apiFetchPhase_failure_no_cache cache _ now outcome hF hE

/-- Witness for C9: a concrete failed GET with a stale entry returns the
stale data, and with an empty cache surfaces an error. -/
theorem api_stale_cache_fallback_witness :
    (api ([("GET:http://127.0.0.1:8000/api/stats", ⟨(9 : Nat), 0⟩)]) "/stats"
        emptyOptions DEFAULT_TIMEOUT_MS 777777
        (FetchOutcome.httpError 500 "Internal Server Error")).result
      = Except.ok 9 ∧
    ∃ e, (api ([] : Cache Nat) "/stats" emptyOptions DEFAULT_TIMEOUT_MS 0
        (FetchOutcome.httpError 500 "Internal Server Error")).result
      = Except.error e :=
  ⟨(api_stale_cache_fallback
      ([("GET:http://127.0.0.1:8000/api/stats", ⟨(9 : Nat), 0⟩)]) "/stats"
      emptyOptions DEFAULT_TIMEOUT_MS 777777
      (FetchOutcome.httpError 500 "Internal Server Error") rfl rfl).1
      ⟨9, 0⟩ (by decide),
   (api_stale_cache_fallback ([] : Cache Nat) "/stats"
      emptyOptions DEFAULT_TIMEOUT_MS 0
      (FetchOutcome.httpError 500 "Internal Server Error") rfl rfl).2 rfl⟩

/-- The fetch phase leaves the cache unchanged unless the outcome is a
parsed response with `success: true`. -/
theorem apiFetchPhase_cache_unchanged {α : Type} (cache : Cache α)
    (m k : String) (now : Nat) (outcome : FetchOutcome α)
    (hNS : ∀ d : α, outcome ≠ FetchOutcome.ok true d) :
    (apiFetchPhase cache m k now outcome).cache = cache := by
  cases outcome with
  | ok s d =>
      cases s with
      | true => exact absurd rfl (hNS d)
      | false => simp [apiFetchPhase]
  | httpError s t => rfl
  | thrown e => rfl
  | thrownNonError => rfl

/-- The fetch phase of a non-GET request leaves the cache unchanged. -/
theorem apiFetchPhase_cache_unchanged_nonget {α : Type} (cache : Cache α)
    (m k : String) (now : Nat) (outcome : FetchOutcome α)
    (hM : m ≠ "GET") :
    (apiFetchPhase cache m k now outcome).cache = cache := by
  cases outcome with
  | ok s d => simp [apiFetchPhase, hM]
  | httpError s t => rfl
  | thrown e => rfl
  | thrownNonError => rfl

/-- C8: `api` memoizes successful GET responses for `CACHE_TTL = 5000` ms.
(a) A GET call without `skipCache` finding an entry younger than the TTL
returns its data with no network request and an unchanged cache; (b) a GET
call that issued a network request and got a `success` response stores its
data under the call's key, stamped with the call time; (c) non-GET calls
and (d) calls whose outcome is not a `success` response never change the
cache; (e) hence after a fetched `success` GET, a second identical call
within 5000 ms returns the stored data without fetching. -/
theorem api_get_memoization {α : Type} :
    (∀ (cache : Cache α) (endpoint : String) (o : RequestOptions)
       (tm now : Nat) (outcome : FetchOutcome α) (entry : CacheEntry α),
       o.effectiveMethod = "GET" → o.skipCache = false →
       cacheGet cache (apiCacheKey "GET" endpoint) = some entry →
       now - entry.timestamp < CACHE_TTL →
       api cache endpoint o tm now outcome
         = ⟨Except.ok entry.data, cache, false⟩) ∧
    (∀ (cache : Cache α) (endpoint : String) (o : RequestOptions)
       (tm now : Nat) (d : α),
       o.effectiveMethod = "GET" →
       (api cache endpoint o tm now (FetchOutcome.ok true d)).fetched = true →
       cacheGet (api cache endpoint o tm now (FetchOutcome.ok true d)).cache
           (apiCacheKey "GET" endpoint) = some ⟨d, now⟩) ∧
    (∀ (cache : Cache α) (endpoint : String) (o : RequestOptions)
       (tm now : Nat) (outcome : FetchOutcome α),
       o.effectiveMethod ≠ "GET" →
       (api cache endpoint o tm now outcome).cache = cache) ∧
    (∀ (cache : Cache α) (endpoint : String) (o : RequestOptions)
       (tm now : Nat) (outcome : FetchOutcome α),
       (∀ d : α, outcome ≠ FetchOutcome.ok true d) →
       (api cache endpoint o tm now outcome).cache = cache) ∧
    (∀ (cache : Cache α) (endpoint : String) (o : RequestOptions)
       (tm now1 : Nat) (d : α) (now2 : Nat) (outcome2 : FetchOutcome α),
       o.effectiveMethod = "GET" → o.skipCache = false →
       (api cache endpoint o tm now1 (FetchOutcome.ok true d)).fetched = true →
       now2 - now1 < CACHE_TTL →
       api (api cache endpoint o tm now1 (FetchOutcome.ok true d)).cache
           endpoint o tm now2 outcome2
         = ⟨Except.ok d,
            (api cache endpoint o tm now1 (FetchOutcome.ok true d)).cache,
            false⟩) := by
  have ha : ∀ (cache : Cache α) (endpoint : String) (o : RequestOptions)
      (tm now : Nat) (outcome : FetchOutcome α) (entry : CacheEntry α),
      o.effectiveMethod = "GET" → o.skipCache = false →
      cacheGet cache (apiCacheKey "GET" endpoint) = some entry →
      now - entry.timestamp < CACHE_TTL →
      api cache endpoint o tm now outcome = ⟨Except.ok entry.data, cache, false⟩ := by
    intro cache endpoint o tm now outcome entry hM hS hE hFresh
    rw [api_unfold_hit cache endpoint o tm now outcome entry
        (by simp [hM, hS, hE]), if_pos hFresh]
  have hb : ∀ (cache : Cache α) (endpoint : String) (o : RequestOptions)
      (tm now : Nat) (d : α),
      o.effectiveMethod = "GET" →
      (api cache endpoint o tm now (FetchOutcome.ok true d)).fetched = true →
      cacheGet (api cache endpoint o tm now (FetchOutcome.ok true d)).cache
          (apiCacheKey "GET" endpoint) = some ⟨d, now⟩ := by
    intro cache endpoint o tm now d hM hFetched
    rcases hs2 : (if o.effectiveMethod = "GET" ∧ o.skipCache = false then
        cacheGet cache (apiCacheKey o.effectiveMethod endpoint) else none)
      with _ | entry
    · rw [api_unfold_miss cache endpoint o tm now (FetchOutcome.ok true d) hs2, hM]
      simp [apiFetchPhase, cacheGet_set_self]
    · rw [api_unfold_hit cache endpoint o tm now (FetchOutcome.ok true d)
          entry hs2] at hFetched ⊢
      by_cases hFresh : now - entry.timestamp < CACHE_TTL
      · rw [if_pos hFresh] at hFetched
        simp at hFetched
      · rw [if_neg hFresh, hM]
        simp [apiFetchPhase, cacheGet_set_self]
  refine ⟨ha, hb, ?_, ?_, ?_⟩
  · intro cache endpoint o tm now outcome hM
    rw [api_unfold_miss cache endpoint o tm now outcome (by simp [hM])]
    exact apiFetchPhase_cache_unchanged_nonget cache _ _ now outcome hM
  · intro cache endpoint o tm now outcome hNS
    rcases hs2 : (if o.effectiveMethod = "GET" ∧ o.skipCache = false then
        cacheGet cache (apiCacheKey o.effectiveMethod endpoint) else none)
      with _ | entry
    · rw [api_unfold_miss cache endpoint o tm now outcome hs2]
      exact apiFetchPhase_cache_unchanged cache _ _ now outcome hNS
    · rw [api_unfold_hit cache endpoint o tm now outcome entry hs2]
      by_cases hFresh : now - entry.timestamp < CACHE_TTL
      · rw [if_pos hFresh]
      · rw [if_neg hFresh]
        exact apiFetchPhase_cache_unchanged cache _ _ now outcome hNS
  · intro cache endpoint o tm now1 d now2 outcome2 hM hS hFetched hTTL
    exact ha _ endpoint o tm now2 outcome2 ⟨d, now1⟩ hM hS
      (hb cache endpoint o tm now1 d hM hFetched) hTTL

/-- Witness for C8: a concrete fresh cached GET is served from the cache
with no network request. -/
theorem api_get_memoization_witness :
    api ([("GET:http://127.0.0.1:8000/api/stats", ⟨(5 : Nat), 100⟩)]) "/stats"
        emptyOptions DEFAULT_TIMEOUT_MS 101 FetchOutcome.thrownNonError
      = ⟨Except.ok 5, [("GET:http://127.0.0.1:8000/api/stats", ⟨5, 100⟩)], false⟩ :=
  api_get_memoization.1 [("GET:http://127.0.0.1:8000/api/stats", ⟨(5 : Nat), 100⟩)]
    "/stats" emptyOptions DEFAULT_TIMEOUT_MS 101 FetchOutcome.thrownNonError
    ⟨5, 100⟩ rfl rfl (by decide) (by decide)

/-- C1: `getCctvStreamUrl` performs at most three attempts whose
per-attempt timeouts are a prefix of 12000/15000/20000 ms in that order,
sleeps 750 ms between consecutive attempts (and only between them), and
returns the first successful `StreamData` without further attempts. -/
theorem getCctvStreamUrl_retry_schedule (f : Nat → Except JsError StreamData) :
    (getCctvStreamUrl f).timeoutsUsed.length ≤ 3 ∧
    (∃ rest, (getCctvStreamUrl f).timeoutsUsed ++ rest = streamAttempts) ∧
    (getCctvStreamUrl f).totalDelay
      = RETRY_DELAY_MS * ((getCctvStreamUrl f).timeoutsUsed.length - 1) ∧
    (∀ (i : Nat) (d : StreamData), i < 3 → f i = Except.ok d →
       (∀ j, j < i → ∃ e, f j = Except.error e) →
       (getCctvStreamUrl f).result = d ∧
       (getCctvStreamUrl f).timeoutsUsed.length = i + 1) := by
  cases h0 : f 0 with
  | ok d0 =>
      have hg : getCctvStreamUrl f = ⟨d0, [12000], 0⟩ := by
        simp [getCctvStreamUrl, streamRetryLoop, streamAttempts, h0]
      rw [hg]
      refine ⟨by simp, ⟨[15000, 20000], by simp [streamAttempts]⟩,
        by simp [RETRY_DELAY_MS], ?_⟩
      intro i d hi hfi hprev
      cases i with
      | zero =>
          rw [h0] at hfi
          injection hfi with h
          subst h
          exact ⟨rfl, rfl⟩
      | succ n =>
          obtain ⟨e, he⟩ := hprev 0 (Nat.succ_pos n)
          rw [h0] at he
          simp at he
  | error e0 =>
      cases h1 : f 1 with
      | ok d1 =>
          have hg : getCctvStreamUrl f = ⟨d1, [12000, 15000], 750⟩ := by
            simp [getCctvStreamUrl, streamRetryLoop, streamAttempts,
              RETRY_DELAY_MS, h0, h1]
          rw [hg]
          refine ⟨by simp, ⟨[20000], by simp [streamAttempts]⟩,
            by simp [RETRY_DELAY_MS], ?_⟩
          intro i d hi hfi hprev
          cases i with
          | zero =>
              rw [h0] at hfi
              simp at hfi
          | succ n =>
              cases n with
              | zero =>
                  rw [h1] at hfi
                  injection hfi with h
                  subst h
                  exact ⟨rfl, rfl⟩
              | succ m =>
                  obtain ⟨e, he⟩ := hprev 1 (by omega)
                  rw [h1] at he
                  simp at he
      | error e1 =>
          cases h2 : f 2 with
          | ok d2 =>
              have hg : getCctvStreamUrl f = ⟨d2, [12000, 15000, 20000], 1500⟩ := by
                simp [getCctvStreamUrl, streamRetryLoop, streamAttempts,
                  RETRY_DELAY_MS, h0, h1, h2]
              rw [hg]
              refine ⟨by simp, ⟨[], by simp [streamAttempts]⟩,
                by simp [RETRY_DELAY_MS], ?_⟩
              intro i d hi hfi hprev
              cases i with
              | zero =>
                  rw [h0] at hfi
                  simp at hfi
              | succ n =>
                  cases n with
                  | zero =>
                      rw [h1] at hfi
                      simp at hfi
                  | succ m =>
                      cases m with
                      | zero =>
                          rw [h2] at hfi
                          injection hfi with h
                          subst h
                          exact ⟨rfl, rfl⟩
                      | succ p => exact absurd hi (by omega)
          | error e2 =>
              have hg : getCctvStreamUrl f = ⟨⟨""⟩, [12000, 15000, 20000], 1500⟩ := by
                simp [getCctvStreamUrl, streamRetryLoop, streamAttempts,
                  RETRY_DELAY_MS, h0, h1, h2]
              rw [hg]
              refine ⟨by simp, ⟨[], by simp [streamAttempts]⟩,
                by simp [RETRY_DELAY_MS], ?_⟩
              intro i d hi hfi hprev
              cases i with
              | zero =>
                  rw [h0] at hfi
                  simp at hfi
              | succ n =>
                  cases n with
                  | zero =>
                      rw [h1] at hfi
                      simp at hfi
                  | succ m =>
                      cases m with
                      | zero =>
                          rw [h2] at hfi
                          simp at hfi
                      | succ p => exact absurd hi (by omega)

/-- Witness for C1: an immediately successful attempt returns its data
after exactly one attempt. -/
theorem getCctvStreamUrl_retry_schedule_witness :
    (getCctvStreamUrl (fun _ => Except.ok ⟨"u"⟩)).result = ⟨"u"⟩ ∧
    (getCctvStreamUrl (fun _ => Except.ok ⟨"u"⟩)).timeoutsUsed.length = 0 + 1 :=
  (getCctvStreamUrl_retry_schedule (fun _ => Except.ok ⟨"u"⟩)).2.2.2 0 ⟨"u"⟩
    (by decide) rfl (fun j hj => absurd hj (Nat.not_lt_zero j))

/-- C2 counterexample: the caller of `getCctvStreamUrl` cannot tell which
failure cause occurred — a run whose every attempt fails with the distinct
timeout error and a run whose every attempt fails with an unknown-source
HTTP 404 error produce identical results, namely `{ stream_url: '' }`. -/
theorem stream_failure_indistinguishable :
    getCctvStreamUrl (fun _ => Except.error timeoutError)
      = getCctvStreamUrl (fun _ =>
          Except.error ⟨"Error", "API request failed: 404 Not Found"⟩) ∧
    (getCctvStreamUrl (fun _ => Except.error timeoutError)).result = ⟨""⟩ := by
  decide

/-- C2 (amended): when playback resolution fails on all attempts,
`getCctvStreamUrl` swallows the errors and returns `{ stream_url: '' }`
whatever the failure causes were; the three-way unknown-source /
unavailable / timeout distinction is not visible in its result. -/
theorem stream_failure_uniform_result
    (f g : Nat → Except JsError StreamData)
    (hf : ∀ i, i < 3 → ∃ e, f i = Except.error e)
    (hg : ∀ i, i < 3 → ∃ e, g i = Except.error e) :
    getCctvStreamUrl f = getCctvStreamUrl g ∧
    (getCctvStreamUrl f).result = ⟨""⟩ := by
  obtain ⟨e0, h0⟩ := hf 0 (by omega)
  obtain ⟨e1, h1⟩ := hf 1 (by omega)
  obtain ⟨e2, h2⟩ := hf 2 (by omega)
  obtain ⟨u0, k0⟩ := hg 0 (by omega)
  obtain ⟨u1, k1⟩ := hg 1 (by omega)
  obtain ⟨u2, k2⟩ := hg 2 (by omega)
  have hF : getCctvStreamUrl f = ⟨⟨""⟩, [12000, 15000, 20000], 1500⟩ := by
    simp [getCctvStreamUrl, streamRetryLoop, streamAttempts, RETRY_DELAY_MS,
      h0, h1, h2]
  have hG : getCctvStreamUrl g = ⟨⟨""⟩, [12000, 15000, 20000], 1500⟩ := by
    simp [getCctvStreamUrl, streamRetryLoop, streamAttempts, RETRY_DELAY_MS,
      k0, k1, k2]
  rw [hF, hG]
  exact ⟨rfl, rfl⟩

/-- Witness for the amended C2 at a concrete all-failing oracle. -/
theorem stream_failure_uniform_result_witness :
    (getCctvStreamUrl (fun _ => Except.error ⟨"Error", "boom"⟩)).result = ⟨""⟩ :=
  (stream_failure_uniform_result (fun _ => Except.error ⟨"Error", "boom"⟩)
    (fun _ => Except.error ⟨"Error", "boom"⟩)
    (fun _ _ => ⟨⟨"Error", "boom"⟩, rfl⟩)
    (fun _ _ => ⟨⟨"Error", "boom"⟩, rfl⟩)).2

/-- C5 counterexample: a first attempt failing with the non-retryable
unknown-source error (an HTTP 404 surfaces as `API request failed: 404
Not Found`) still triggers a second attempt — the `catch` on line 268
retries on every error indiscriminately. -/
theorem stream_retries_after_unknown_source :
    (getCctvStreamUrl (fun i =>
        if i = 0 then Except.error ⟨"Error", "API request failed: 404 Not Found"⟩
        else Except.ok ⟨"http://stream"⟩)).timeoutsUsed.length = 2 := by
  decide

/-- C5 (amended): `getCctvStreamUrl` retries after every failed attempt
regardless of the failure's cause — if the first `k ≤ 3` attempts all
fail, at least `k` attempts are made. -/
theorem stream_retries_on_any_failure
    (f : Nat → Except JsError StreamData) (k : Nat) (hk : k ≤ 3)
    (hfail : ∀ j, j < k → ∃ e, f j = Except.error e) :
    k ≤ (getCctvStreamUrl f).timeoutsUsed.length := by
  cases h0 : f 0 with
  | ok d0 =>
      have hg : getCctvStreamUrl f = ⟨d0, [12000], 0⟩ := by
        simp [getCctvStreamUrl, streamRetryLoop, streamAttempts, h0]
      rw [hg]
      by_contra hcon
      push_neg at hcon
      simp at hcon
      obtain ⟨e, he⟩ := hfail 0 (by omega)
      rw [h0] at he
      simp at he
  | error e0 =>
      cases h1 : f 1 with
      | ok d1 =>
          have hg : getCctvStreamUrl f = ⟨d1, [12000, 15000], 750⟩ := by
            simp [getCctvStreamUrl, streamRetryLoop, streamAttempts,
              RETRY_DELAY_MS, h0, h1]
          rw [hg]
          by_contra hcon
          push_neg at hcon
          simp at hcon
          obtain ⟨e, he⟩ := hfail 1 (by omega)
          rw [h1] at he
          simp at he
      | error e1 =>
          cases h2 : f 2 with
          | ok d2 =>
              have hg : getCctvStreamUrl f = ⟨d2, [12000, 15000, 20000], 1500⟩ := by
                simp [getCctvStreamUrl, streamRetryLoop, streamAttempts,
                  RETRY_DELAY_MS, h0, h1, h2]
              rw [hg]
              simpa using hk
          | error e2 =>
              have hg : getCctvStreamUrl f = ⟨⟨""⟩, [12000, 15000, 20000], 1500⟩ := by
                simp [getCctvStreamUrl, streamRetryLoop, streamAttempts,
                  RETRY_DELAY_MS, h0, h1, h2]
              rw [hg]
              simpa using hk

/-- Witness for the amended C5: three failing attempts make all three
scheduled attempts. -/
theorem stream_retries_on_any_failure_witness :
    3 ≤ (getCctvStreamUrl (fun _ =>
        Except.error ⟨"Error", "API request failed: 503 Service Unavailable"⟩)).timeoutsUsed.length :=
  stream_retries_on_any_failure
    (fun _ => Except.error ⟨"Error", "API request failed: 503 Service Unavailable"⟩)
    3 (by decide)
    (fun _ _ => ⟨⟨"Error", "API request failed: 503 Service Unavailable"⟩, rfl⟩)

/-- `ensure_worker` when a live worker exists: returns it, changes nothing. -/
theorem ensure_worker_of_find_some {st : SupervisorState} {id : String}
    {w : Worker} (h : findWorker st id = some w) :
    ensure_worker st id = ⟨w, st, false⟩ := by
  unfold ensure_worker
  rw [h]

/-- `ensure_worker` when no live worker exists: spawns exactly one. -/
theorem ensure_worker_of_find_none {st : SupervisorState} {id : String}
    (h : findWorker st id = none) :
    ensure_worker st id
      = ⟨⟨id, st.nextHandle⟩,
         ⟨⟨id, st.nextHandle⟩ :: st.workers, st.nextHandle + 1⟩, true⟩ := by
  unfold ensure_worker
  rw [h]

/-- C6: at-most-one-worker-per-source.  In every reachable supervisor
state each source has at most one live worker; `ensure_worker` is
idempotent — a second call for the same source returns the handle the
first call produced, with the state unchanged and no process spawned — so
a storm of (per-source serialized, spec §5) `ensure_worker` calls on a
source with no worker spawns exactly one process. -/
theorem ensure_worker_at_most_one :
    (∀ st, SupervisorReachable st → ∀ id, liveWorkersFor st id ≤ 1) ∧
    (∀ (st : SupervisorState) (id : String),
       ensure_worker (ensure_worker st id).state id
         = ⟨(ensure_worker st id).worker, (ensure_worker st id).state, false⟩) ∧
    (∀ (st : SupervisorState) (id : String),
       findWorker st id = none → (ensure_worker st id).spawned = true) := by
  refine ⟨?_, ?_, ?_⟩
  · intro st h
    induction h with
    | init => intro id; simp [liveWorkersFor, initSupervisor]
    | ensure st' id' hr ih =>
        intro id
        cases hf : findWorker st' id' with
        | some w =>
            rw [ensure_worker_of_find_some hf]
            exact ih id
        | none =>
            rw [ensure_worker_of_find_none hf]
            have hnone : ∀ w ∈ st'.workers, ¬ (w.sourceId == id') = true := by
              intro w hw
              have hf' : st'.workers.find? (fun w => w.sourceId == id') = none := hf
              exact List.find?_eq_none.mp hf' w hw
            by_cases hid : id' = id
            · subst hid
              have hfe : st'.workers.filter (fun w => w.sourceId == id') = [] :=
                List.filter_eq_nil_iff.mpr hnone
              simp [liveWorkersFor, List.filter_cons, hfe]
            · have := ih id
              simp only [liveWorkersFor] at this ⊢
              simpa [List.filter_cons, hid] using this
    | stop st' id' hr ih =>
        intro id
        have hsub : ((st'.workers.filter (fun w => w.sourceId != id')).filter
            (fun w => w.sourceId == id)).Sublist
            (st'.workers.filter (fun w => w.sourceId == id)) :=
          List.Sublist.filter _ (List.filter_sublist _)
        exact le_trans hsub.length_le (ih id)
  · intro st id
    cases hf : findWorker st id with
    | some w =>
        rw [ensure_worker_of_find_some hf]
        exact ensure_worker_of_find_some hf
    | none =>
        rw [ensure_worker_of_find_none hf]
        have hf2 : findWorker
            (⟨⟨id, st.nextHandle⟩ :: st.workers, st.nextHandle + 1⟩ :
              SupervisorState) id = some ⟨id, st.nextHandle⟩ := by
          simp [findWorker]
        exact ensure_worker_of_find_some hf2
  · intro st id hf
    rw [ensure_worker_of_find_none hf]

/-- Witness for C6 at the initial supervisor state. -/
theorem ensure_worker_at_most_one_witness :
    liveWorkersFor initSupervisor "cam1" ≤ 1 ∧
    (ensure_worker initSupervisor "cam1").spawned = true :=
  ⟨ensure_worker_at_most_one.1 initSupervisor SupervisorReachable.init "cam1",
   ensure_worker_at_most_one.2.2 initSupervisor "cam1" rfl⟩

/-- Every reachable Segment Store state satisfies the store invariant. -/
theorem store_inv_of_reachable (st : StoreState) (h : StoreReachable st) :
    StoreInv st := by
  induction h with
  | init => exact ⟨List.nodup_nil, by simp [initStore], by simp [initStore]⟩
  | step hr hs ih =>
      obtain ⟨hnd, hsub, hpen⟩ := ih
      cases hs with
      | writeChunk =>
          exact ⟨hnd, fun c hc => List.mem_cons_of_mem _ (hsub c hc), hpen⟩
      | publishRef c hcs hcm hcp =>
          refine ⟨?_, ?_, ?_⟩
          · simp [List.nodup_append, hnd, hcm]
          · intro a ha
            rcases List.mem_append.mp ha with h | h
            · exact hsub a h
            · simp at h
              subst h
              exact hcs
          · intro p hp hmem
            rcases List.mem_append.mp hmem with h | h
            · exact hpen p hp h
            · simp at h
              subst h
              exact hcp hp
      | dropOldest c rest hman =>
          rw [hman] at hnd hsub hpen
          refine ⟨(List.nodup_cons.mp hnd).2, ?_, ?_⟩
          · intro a ha
            exact hsub a (List.mem_cons_of_mem c ha)
          · intro p hp hmem
            rcases List.mem_cons.mp hp with rfl | hp'
            · exact (List.nodup_cons.mp hnd).1 hmem
            · exact hpen p hp' (List.mem_cons_of_mem c hmem)
      | deleteChunk c hcp =>
          refine ⟨hnd, ?_, ?_⟩
          · intro a ha
            have hne : a ≠ c := fun he => (hpen c hcp) (he ▸ ha)
            exact (List.mem_erase_of_ne hne).mpr (hsub a ha)
          · intro p hp
            exact hpen p (List.mem_of_mem_erase hp)

/-- C7: in every reachable Segment Store state the manifest references
only chunks whose backing data still exists in storage — a chunk becomes
deletable only strictly after the manifest rewrite dropping its reference
is visible, so no manifest ever references a deleted chunk. -/
theorem manifest_never_references_deleted (st : StoreState)
    (h : StoreReachable st) : ∀ c ∈ st.manifest, c ∈ st.storage :=
  (store_inv_of_reachable st h).2.1

/-- Witness for C7: a concrete reachable store (one chunk written, then
referenced) keeps the referenced chunk in storage. -/
theorem manifest_never_references_deleted_witness :
    (0 : Nat) ∈ (⟨[0], [0], [], 1⟩ : StoreState).storage :=
  manifest_never_references_deleted ⟨[0], [0], [], 1⟩
    (StoreReachable.step
      (StoreReachable.step StoreReachable.init (StoreStep.writeChunk initStore))
      (StoreStep.publishRef ⟨[], [0], [], 1⟩ 0 (by simp) (by simp) (by simp)))
    0 (by simp)

end ATCS

